import Mathlib

/-!
# Verification of the auto-response engine and context store

A shallow embedding of `src/bot/services/auto_response.py` and
`src/bot/services/context.py`.

Modelling conventions:
* Python `float` values are modelled as rationals (`ℚ`); the decimal
  constants of the source (`0.02`, `0.3`, …) are the corresponding
  rationals (`1/50`, `3/10`, …).
* Timestamps (`datetime`) are modelled as rationals counting seconds;
  `datetime.now()` becomes an explicit `now : ℚ` argument, and
  subtraction of datetimes followed by `.total_seconds()` becomes
  rational subtraction.
* Python `dict` keyword tables are modelled as association lists
  `List (String × ℚ)` (Python dicts iterate each key exactly once, in
  insertion order).
* `random.random()` becomes an explicit `roll : ℚ` argument.
* Mutating methods become state transformers returning the new object
  state alongside the result.
-/

namespace AutoResp

/-- Contiguous-sublist test on character lists: `needle` occurs somewhere
in `hay`. -/
def listContains (needle : List Char) : List Char → Bool
  | [] => needle.isEmpty
  | h :: t => needle.isPrefixOf (h :: t) || listContains needle t

/-- Python substring test `needle in hay` (`str.__contains__`); the empty
needle is contained in every string. -/
def strIn (needle hay : String) : Bool :=
  listContains needle.data hay.data

/-- Python `str.lower()`, modelled characterwise (the messages of interest
are ASCII, where `str.lower` lowercases exactly the letters `A`-`Z`). -/
def pyLower (s : String) : String :=
  ⟨s.data.map Char.toLower⟩

/-- Python's builtin `min` on two values: the smaller, the first on a
tie. -/
def pymin (a b : ℚ) : ℚ :=
  if a ≤ b then a else b

/-- `AutoResponseSettings` dataclass (auto_response.py lines 18-27). -/
structure AutoResponseSettings where
  enabled : Bool
  designated_channel_id : Option String
  base_chance : ℚ
  max_chance : ℚ
  min_seconds_between : ℚ
  max_per_window : ℕ
  window_seconds : ℚ
deriving DecidableEq, Repr

/-- The dataclass field defaults (lines 21-27): `enabled=True`,
`designated_channel_id=None`, `base_chance=0.02`, `max_chance=0.8`,
`min_seconds_between=30`, `max_per_window=3`, `window_seconds=300`. -/
def defaultSettings : AutoResponseSettings :=
  { enabled := true
    designated_channel_id := none
    base_chance := 1/50
    max_chance := 4/5
    min_seconds_between := 30
    max_per_window := 3
    window_seconds := 300 }

/-- A persisted settings document, as the fields `from_dict` reads from the
parsed JSON dict: `none` models an absent key. (`designated_channel_id` has
no separate default, `data.get` returns `None` when absent, so absence and
an explicit null coincide.) -/
structure SettingsDoc where
  enabled : Option Bool
  designated_channel_id : Option String
  base_chance : Option ℚ
  max_chance : Option ℚ
  min_seconds_between : Option ℚ
  max_per_window : Option ℕ
  window_seconds : Option ℚ
deriving DecidableEq

/-- `AutoResponseSettings.from_dict` (lines 29-39): each field is
`data.get(key, default)`. -/
def from_dict (d : SettingsDoc) : AutoResponseSettings :=
  { enabled := d.enabled.getD true
    designated_channel_id := d.designated_channel_id
    base_chance := d.base_chance.getD (1/50)
    max_chance := d.max_chance.getD (4/5)
    min_seconds_between := d.min_seconds_between.getD 30
    max_per_window := d.max_per_window.getD 3
    window_seconds := d.window_seconds.getD 300 }

/-- The state of the persisted settings file as `_load_settings` can
encounter it: absent, unreadable/unparsable (any exception), or a parsed
document. -/
inductive SettingsFile where
  | missing : SettingsFile
  | malformed : SettingsFile
  | valid : SettingsDoc → SettingsFile

/-- `AutoResponseEngine._load_settings` (lines 57-67): parse the file if it
exists, fall back to `AutoResponseSettings()` defaults when the file is
missing or any exception occurs. Total: every branch returns a settings
value. -/
def load_settings : SettingsFile → AutoResponseSettings
  | .missing => defaultSettings
  | .malformed => defaultSettings
  | .valid d => from_dict d

/-- One entry of a channel's conversation context, as built by
`ContextManager.add_message` (context.py lines 91-97). -/
structure ContextEntry where
  timestamp : ℚ
  user : String
  message : String
  is_bot : Bool
deriving DecidableEq, Repr

/-- `AutoResponseEngine` mutable state: `settings`, `last_response_time`,
`response_times` (lines 51-55). -/
structure AutoResponseEngine where
  settings : AutoResponseSettings
  last_response_time : Option ℚ
  response_times : List ℚ
deriving DecidableEq

/-- `AutoResponseEngine.is_designated_channel` (lines 85-87):
`str(channel_id) == self.settings.designated_channel_id`; comparing a
string with `None` is `False`. -/
def is_designated_channel (e : AutoResponseEngine) (channel_id : String) : Bool :=
  match e.settings.designated_channel_id with
  | some c => channel_id == c
  | none => false

/-- `AutoResponseEngine._check_cooldowns_soft` (lines 167-177). -/
def check_cooldowns_soft (e : AutoResponseEngine) (now : ℚ) : Bool :=
  match e.last_response_time with
  | some t => !decide (now - t < e.settings.min_seconds_between)
  | none => true

/-- `AutoResponseEngine.check_cooldowns` (lines 179-197): false inside the
`min_seconds_between` floor, false when the count of `response_times`
entries newer than `now - window_seconds` reaches `max_per_window`. -/
def check_cooldowns (e : AutoResponseEngine) (now : ℚ) : Bool :=
  (match e.last_response_time with
   | some t => !decide (now - t < e.settings.min_seconds_between)
   | none => true)
  && decide ((e.response_times.filter
        (fun t => now - e.settings.window_seconds < t)).length
      < e.settings.max_per_window)

/-- The tech lexicon of `calculate_chance` (line 146). -/
def tech_keywords : List String :=
  ["code", "program", "software", "bug", "error", "help"]

/-- The `tech_mentions` count (lines 147-151): over the last 5 context
entries, the number of (entry, lexicon term) pairs such that the term is a
substring of the entry's lowercased message. A term occurring twice in one
entry still contributes one pair. -/
def tech_mentions (context : List ContextEntry) : ℕ :=
  ((context.drop (context.length - 5)).map (fun m => pyLower m.message)).foldl
    (fun acc msg => acc + (tech_keywords.filter (fun kw => strIn kw msg)).length) 0

/-- `AutoResponseEngine.calculate_chance` (lines 89-165), translated
step by step: keyword multipliers, `?` and `!` factors, caps-ratio factor,
length bucket, tech-context factor, soft-cooldown penalty, final cap. -/
def calculate_chance (e : AutoResponseEngine) (now : ℚ)
    (message_content : String) (keywords : List (String × ℚ))
    (context : List ContextEntry) : ℚ :=
  let content_lower := pyLower message_content
  let chance := keywords.foldl
    (fun c p => if strIn (pyLower p.1) content_lower then c * p.2 else c)
    e.settings.base_chance
  let chance := if strIn "?" message_content then chance * 2 else chance
  let chance := if strIn "!" message_content then chance * (3/2) else chance
  let chance :=
    if 0 < message_content.length then
      if (3:ℚ)/10 <
          ((message_content.data.filter Char.isUpper).length : ℚ) /
            (message_content.length : ℚ) then
        chance * 2
      else chance
    else chance
  let msg_len := message_content.length
  let chance :=
    if msg_len < 5 then chance * (3/10)
    else if 200 < msg_len then chance * (1/2)
    else if 10 ≤ msg_len ∧ msg_len ≤ 100 then chance * (3/2)
    else chance
  let chance :=
    if context ≠ [] then
      if 2 ≤ tech_mentions context then chance * 2 else chance
    else chance
  let chance := if !check_cooldowns_soft e now then chance * (1/10) else chance
  pymin chance e.settings.max_chance

/-!
Derived, factored view of `calculate_chance`: each multiplicative stage of
the source loop becomes a named factor, and the function is their product
clamped by `pymin`. `calculate_chance_eq_raw` below proves the two views
equal; the claim theorems speak about the factors.
-/

/-- The combined multiplier contributed by the keyword loop (lines
110-113): the product of the multipliers of the keywords that occur
case-insensitively in the message. -/
def keyword_factor (msg : String) (kws : List (String × ℚ)) : ℚ :=
  ((kws.filter (fun p => strIn (pyLower p.1) (pyLower msg))).map Prod.snd).prod

/-- `?` factor (lines 116-118). -/
def question_factor (msg : String) : ℚ :=
  if strIn "?" msg then 2 else 1

/-- `!` factor (lines 120-122). -/
def exclamation_factor (msg : String) : ℚ :=
  if strIn "!" msg then 3/2 else 1

/-- Caps-ratio factor (lines 124-129); the ratio is computed only for a
nonempty message. -/
def caps_factor (msg : String) : ℚ :=
  if 0 < msg.length then
    if (3:ℚ)/10 <
        ((msg.data.filter Char.isUpper).length : ℚ) / (msg.length : ℚ) then 2
    else 1
  else 1

/-- Length-bucket factor (lines 131-141). -/
def length_factor (msg : String) : ℚ :=
  if msg.length < 5 then 3/10
  else if 200 < msg.length then 1/2
  else if 10 ≤ msg.length ∧ msg.length ≤ 100 then 3/2
  else 1

/-- Tech-conversation factor (lines 143-154). -/
def context_factor (ctx : List ContextEntry) : ℚ :=
  if ctx ≠ [] then
    if 2 ≤ tech_mentions ctx then 2 else 1
  else 1

/-- Soft-cooldown penalty factor (lines 156-159). -/
def cooldown_factor (e : AutoResponseEngine) (now : ℚ) : ℚ :=
  if !check_cooldowns_soft e now then 1/10 else 1

/-- The unclamped chance: `base_chance` times every stage factor. -/
def raw_chance (e : AutoResponseEngine) (now : ℚ) (msg : String)
    (kws : List (String × ℚ)) (ctx : List ContextEntry) : ℚ :=
  e.settings.base_chance * keyword_factor msg kws * question_factor msg *
    exclamation_factor msg * caps_factor msg * length_factor msg *
    context_factor ctx * cooldown_factor e now

/-- `AutoResponseEngine.should_respond` (lines 199-235). The ambient
`random.random()` draw is the explicit `roll` argument; the returned engine
component witnesses what the call did to the object state. -/
def should_respond (e : AutoResponseEngine) (channel_id : String)
    (message_content : String) (keywords : List (String × ℚ))
    (context : List ContextEntry) (now roll : ℚ) :
    Bool × AutoResponseEngine :=
  if !e.settings.enabled then (false, e)
  else if !is_designated_channel e channel_id then (false, e)
  else if !check_cooldowns e now then (false, e)
  else
    let chance := calculate_chance e now message_content keywords context
    (decide (roll < chance), e)

/-- `AutoResponseEngine.record_response` (lines 237-247): set
`last_response_time`, append to `response_times`, prune entries older than
`2 × window_seconds`. -/
def record_response (e : AutoResponseEngine) (now : ℚ) : AutoResponseEngine :=
  { e with
    last_response_time := some now
    response_times :=
      (e.response_times ++ [now]).filter
        (fun t => now - e.settings.window_seconds * 2 < t) }

end AutoResp

namespace Ctx

open AutoResp (ContextEntry strIn)

/-- `ContextManager` state (context.py lines 23-34): the per-channel map is
modelled as a total function defaulting to `[]`; Python's key-absence
checks (`channel_id not in self.context_data`) coincide behaviourally with
the empty list. -/
structure ContextManager where
  max_history : ℕ
  context_data : String → List ContextEntry

/-- Python slice `l[-n:]`: the last `n` elements when `n ≥ 1`; for `n = 0`
the slice `l[-0:]` is `l[0:]`, the whole list. -/
def sliceLast (n : ℕ) (l : List ContextEntry) : List ContextEntry :=
  if n = 0 then l else l.drop (l.length - n)

/-- `ContextManager.add_message` (lines 68-104): append a timestamped
entry to the channel's list, then trim with `[-max_history:]` when the
length exceeds `max_history`. -/
def add_message (cm : ContextManager) (channel_id user message : String)
    (is_bot : Bool) (now : ℚ) : ContextManager :=
  let entry : ContextEntry :=
    { timestamp := now, user := user, message := message, is_bot := is_bot }
  let history := cm.context_data channel_id ++ [entry]
  let history :=
    if cm.max_history < history.length then sliceLast cm.max_history history
    else history
  { cm with context_data :=
      fun c => if c = channel_id then history else cm.context_data c }

/-- The scan of `remove_last_bot_message` (lines 196-201) on one channel's
list: walk from the newest entry towards the oldest, pop the first entry
with `is_bot` set and `message == content`; `none` when no entry matches. -/
def removeLastMatching (content : String) : List ContextEntry → Option (List ContextEntry)
  | [] => none
  | e :: rest =>
    match removeLastMatching content rest with
    | some rest' => some (e :: rest')
    | none =>
      if e.is_bot && e.message == content then some rest else none

/-- `ContextManager.remove_last_bot_message` (lines 180-203): returns
whether an entry was removed, alongside the updated store. -/
def remove_last_bot_message (cm : ContextManager) (channel_id content : String) :
    Bool × ContextManager :=
  match removeLastMatching content (cm.context_data channel_id) with
  | some l =>
    (true,
     { cm with context_data :=
         fun c => if c = channel_id then l else cm.context_data c })
  | none => (false, cm)

/-- `ContextManager.clear_channel` (lines 205-210): drop the channel's
list. -/
def clear_channel (cm : ContextManager) (channel_id : String) : ContextManager :=
  { cm with context_data :=
      fun c => if c = channel_id then [] else cm.context_data c }

end Ctx

namespace AutoResp

/-- The engine configured as in the end-to-end scenario: settings
`{enabled: true, designated_channel_id: "42", base_chance: 0.02,
max_chance: 0.8, min_seconds_between: 30, max_per_window: 3,
window_seconds: 300}`, with no prior recorded response. -/
def scenarioEngine : AutoResponseEngine :=
  { settings :=
      { enabled := true
        designated_channel_id := some "42"
        base_chance := 1/50
        max_chance := 4/5
        min_seconds_between := 30
        max_per_window := 3
        window_seconds := 300 }
    last_response_time := none
    response_times := [] }

/-- A freshly constructed engine on default settings (`__init__`, lines
51-55): no last response time, empty response list. -/
def defaultEngine : AutoResponseEngine :=
  { settings := defaultSettings
    last_response_time := none
    response_times := [] }

/-- Number of (possibly overlapping) occurrences of `needle` in `hay`: the
number of character positions where `needle` matches. This renders the
spec's notion of "occurrences"; the code's `tech_mentions` counts
(entry, term) pairs instead. -/
def occurrencesOf (needle hay : String) : ℕ :=
  ((List.range hay.data.length).filter
    (fun i => needle.data.isPrefixOf (hay.data.drop i))).length

end AutoResp

namespace Ctx

open AutoResp (ContextEntry)

/-- First entry of the retry-removal scenario: a bot message "x". -/
def entryA : ContextEntry :=
  { timestamp := 0, user := "alice", message := "x", is_bot := true }

/-- Second entry of the retry-removal scenario: a user message "y". -/
def entryB : ContextEntry :=
  { timestamp := 1, user := "bob", message := "y", is_bot := false }

/-- Third entry of the retry-removal scenario: a newer bot message "x". -/
def entryC : ContextEntry :=
  { timestamp := 2, user := "carol", message := "x", is_bot := true }

/-- A store whose only populated channel `"chan"` holds the scenario
entries in order. -/
def scenarioStore : ContextManager :=
  { max_history := 300
    context_data := fun c => if c = "chan" then [entryA, entryB, entryC] else [] }

/-- A store with the given capacity and no messages in any channel. -/
def emptyStore (max_history : ℕ) : ContextManager :=
  { max_history := max_history, context_data := fun _ => [] }

/-- Append a list of entries to one channel, one `add_message` call per
entry (each entry supplies the arguments of one call). -/
def add_all (cm : ContextManager) (channel_id : String)
    (es : List ContextEntry) : ContextManager :=
  es.foldl
    (fun cm en => add_message cm channel_id en.user en.message en.is_bot en.timestamp)
    cm

end Ctx

namespace AutoResp

/-- The keyword loop of `calculate_chance`, started from any accumulator,
multiplies the accumulator by `keyword_factor`. -/
theorem foldl_keyword_eq (msg : String) (kws : List (String × ℚ)) (a : ℚ) :
    kws.foldl
      (fun c p => if strIn (pyLower p.1) (pyLower msg) then c * p.2 else c) a
      = a * keyword_factor msg kws := by
  induction kws generalizing a with
  | nil => simp [keyword_factor]
  | cons p t ih =>
    simp only [List.foldl_cons, ih, keyword_factor, List.filter_cons]
    by_cases h : strIn (pyLower p.1) (pyLower msg) = true
    · simp only [h, if_true, List.map_cons, List.prod_cons]
      ring
    · simp only [h, if_false, Bool.false_eq_true]

/-- A guarded in-place multiplication (`if c: x *= k`) is multiplication
by a guarded factor. -/
theorem ite_mul_stage (c : Prop) [Decidable c] (x k : ℚ) :
    (if c then x * k else x) = x * (if c then k else 1) := by
  split <;> ring

/-- Factor a shared multiplicand out of both branches of an `if`. -/
theorem ite_mul_right (c : Prop) [Decidable c] (x a b : ℚ) :
    (if c then x * a else x * b) = x * (if c then a else b) := by
  split <;> rfl

/-- `calculate_chance` is the clamped product of the stage factors. -/
theorem calculate_chance_eq_raw (e : AutoResponseEngine) (now : ℚ)
    (msg : String) (kws : List (String × ℚ)) (ctx : List ContextEntry) :
    calculate_chance e now msg kws ctx
      = pymin (raw_chance e now msg kws ctx) e.settings.max_chance := by
  simp only [calculate_chance]
  simp only [foldl_keyword_eq]
  simp only [ite_mul_stage, ite_mul_right]
  simp only [raw_chance, question_factor, exclamation_factor, caps_factor,
    length_factor, context_factor, cooldown_factor]

end AutoResp

namespace AutoResp

theorem pymin_eq_min (a b : ℚ) : pymin a b = min a b := by
  rw [pymin, min_def]

theorem pymin_le_pymin_left {a b : ℚ} (c : ℚ) (h : a ≤ b) :
    pymin a c ≤ pymin b c := by
  unfold pymin
  split_ifs <;> linarith

theorem keyword_factor_append (msg : String) (l1 l2 : List (String × ℚ)) :
    keyword_factor msg (l1 ++ l2)
      = keyword_factor msg l1 * keyword_factor msg l2 := by
  simp [keyword_factor, List.filter_append, List.prod_append]

theorem keyword_factor_nonneg (msg : String) (kws : List (String × ℚ))
    (h : ∀ p ∈ kws, 0 ≤ p.2) : 0 ≤ keyword_factor msg kws := by
  unfold keyword_factor
  refine List.prod_nonneg ?_
  intro x hx
  obtain ⟨p, hp, rfl⟩ := List.mem_map.mp hx
  exact h p (List.mem_of_mem_filter hp)

theorem question_factor_pos (msg : String) : 0 < question_factor msg := by
  unfold question_factor
  split <;> norm_num

theorem exclamation_factor_pos (msg : String) : 0 < exclamation_factor msg := by
  unfold exclamation_factor
  split <;> norm_num

theorem caps_factor_pos (msg : String) : 0 < caps_factor msg := by
  unfold caps_factor
  split_ifs <;> norm_num

theorem length_factor_pos (msg : String) : 0 < length_factor msg := by
  unfold length_factor
  split_ifs <;> norm_num

theorem context_factor_pos (ctx : List ContextEntry) : 0 < context_factor ctx := by
  unfold context_factor
  split_ifs <;> norm_num

theorem cooldown_factor_pos (e : AutoResponseEngine) (now : ℚ) :
    0 < cooldown_factor e now := by
  unfold cooldown_factor
  split <;> norm_num

theorem raw_chance_nonneg (e : AutoResponseEngine) (now : ℚ) (msg : String)
    (kws : List (String × ℚ)) (ctx : List ContextEntry)
    (hbase : 0 ≤ e.settings.base_chance) (hkws : ∀ p ∈ kws, 0 ≤ p.2) :
    0 ≤ raw_chance e now msg kws ctx := by
  unfold raw_chance
  exact mul_nonneg
    (mul_nonneg
      (mul_nonneg
        (mul_nonneg
          (mul_nonneg
            (mul_nonneg (mul_nonneg hbase (keyword_factor_nonneg msg kws hkws))
              (question_factor_pos msg).le)
            (exclamation_factor_pos msg).le)
          (caps_factor_pos msg).le)
        (length_factor_pos msg).le)
      (context_factor_pos ctx).le)
    (cooldown_factor_pos e now).le

end AutoResp

namespace AutoResp

/-- When enabled, on the designated channel, and with cooldowns clear,
`should_respond` reduces to the random draw against the calculated
chance, and leaves the engine untouched. -/
theorem should_respond_open (e : AutoResponseEngine) (ch msg : String)
    (kws : List (String × ℚ)) (ctx : List ContextEntry) (now roll : ℚ)
    (hen : e.settings.enabled = true) (hch : is_designated_channel e ch = true)
    (hcd : check_cooldowns e now = true) :
    should_respond e ch msg kws ctx now roll
      = (decide (roll < calculate_chance e now msg kws ctx), e) := by
  simp [should_respond, hen, hch, hcd]

/-- C1: for settings `{enabled: true, designatedChannelID: "42",
baseChance: 0.02, maxChance: 0.8, minSecondsBetween: 30, maxPerWindow: 3,
windowSeconds: 300}`, message `"is this a bug??"`, keyword table
`{"bug": 5.0}`, empty context and no prior recorded response, the chance
is exactly `0.02 × 5.0 × 2.0 × 1.5 = 0.3`, and `should_respond` on the
designated channel is `true` for a draw of `0.1` and `false` for a draw
of `0.5`. -/
theorem C1_end_to_end_scenario :
    calculate_chance scenarioEngine 0 "is this a bug??" [("bug", 5)] [] = 3/10
    ∧ (should_respond scenarioEngine "42" "is this a bug??" [("bug", 5)] [] 0 (1/10)).1 = true
    ∧ (should_respond scenarioEngine "42" "is this a bug??" [("bug", 5)] [] 0 (1/2)).1 = false := by
  have hkw : keyword_factor "is this a bug??" [("bug", 5)] = 5 := by
    have h : strIn (pyLower "bug") (pyLower "is this a bug??") = true := by decide
    simp [keyword_factor, h]
  have hq : question_factor "is this a bug??" = 2 := by
    have h : strIn "?" "is this a bug??" = true := by decide
    simp [question_factor, h]
  have hex : exclamation_factor "is this a bug??" = 1 := by
    have h : strIn "!" "is this a bug??" = false := by decide
    simp [exclamation_factor, h]
  have hcap : caps_factor "is this a bug??" = 1 := by
    have h1 : ("is this a bug??".data.filter Char.isUpper).length = 0 := by decide
    have h2 : "is this a bug??".length = 15 := by decide
    unfold caps_factor
    rw [h1, h2]
    norm_num
  have hlen : length_factor "is this a bug??" = 3/2 := by
    have h2 : "is this a bug??".length = 15 := by decide
    unfold length_factor
    rw [h2]
    norm_num
  have hchance : calculate_chance scenarioEngine 0 "is this a bug??" [("bug", 5)] [] = 3/10 := by
    rw [calculate_chance_eq_raw]
    unfold raw_chance
    rw [hkw, hq, hex, hcap, hlen]
    have hctx : context_factor ([] : List ContextEntry) = 1 := by
      simp [context_factor]
    have hcool : cooldown_factor scenarioEngine 0 = 1 := by
      simp [cooldown_factor, check_cooldowns_soft, scenarioEngine]
    rw [hctx, hcool]
    norm_num [scenarioEngine, pymin]
  refine ⟨hchance, ?_, ?_⟩
  · rw [should_respond_open scenarioEngine "42" "is this a bug??" [("bug", 5)] [] 0 (1/10)
      rfl (by decide) (by decide)]
    simp only [hchance, decide_eq_true_eq]
    norm_num
  · rw [should_respond_open scenarioEngine "42" "is this a bug??" [("bug", 5)] [] 0 (1/2)
      rfl (by decide) (by decide)]
    simp only [hchance]
    rw [decide_eq_false_iff_not]
    norm_num

end AutoResp

namespace AutoResp

/-- C2: for every message text, keyword-weight table (positive multipliers,
per the data model), context list and cooldown state, the calculated
chance lies in the closed interval `[0, max_chance]` (stated for any
settings with nonnegative `base_chance` and `max_chance`, which the data
model's `(0,1]` ranges imply). -/
theorem C2_chance_in_range (e : AutoResponseEngine) (now : ℚ) (msg : String)
    (kws : List (String × ℚ)) (ctx : List ContextEntry)
    (hbase : 0 ≤ e.settings.base_chance) (hmax : 0 ≤ e.settings.max_chance)
    (hkws : ∀ p ∈ kws, 0 ≤ p.2) :
    0 ≤ calculate_chance e now msg kws ctx
      ∧ calculate_chance e now msg kws ctx ≤ e.settings.max_chance := by
  rw [calculate_chance_eq_raw]
  have hraw := raw_chance_nonneg e now msg kws ctx hbase hkws
  unfold pymin
  constructor
  · split
    · exact hraw
    · exact hmax
  · split
    · assumption
    · exact le_refl _

/-- Witness for C2 at a concrete input. -/
theorem C2_chance_in_range_witness :
    0 ≤ scenarioEngine.settings.base_chance
      ∧ 0 ≤ scenarioEngine.settings.max_chance
      ∧ (∀ p ∈ [("bug", (5:ℚ))], 0 ≤ p.2)
      ∧ 0 ≤ calculate_chance scenarioEngine 0 "is this a bug??" [("bug", 5)] []
      ∧ calculate_chance scenarioEngine 0 "is this a bug??" [("bug", 5)] []
          ≤ scenarioEngine.settings.max_chance := by
  have h1 : 0 ≤ scenarioEngine.settings.base_chance := by norm_num [scenarioEngine]
  have h2 : 0 ≤ scenarioEngine.settings.max_chance := by norm_num [scenarioEngine]
  have h3 : ∀ p ∈ [("bug", (5:ℚ))], 0 ≤ p.2 := by
    intro p hp
    simp only [List.mem_singleton] at hp
    subst hp
    norm_num
  obtain ⟨ha, hb⟩ :=
    C2_chance_in_range scenarioEngine 0 "is this a bug??" [("bug", 5)] [] h1 h2 h3
  exact ⟨h1, h2, h3, ha, hb⟩

/-- C3: adding a keyword `k` not present in the table, whose lowercased
form occurs in the lowercased message, with multiplier `m > 1`, never
decreases the calculated chance (stated for tables with nonnegative
multipliers and nonnegative `base_chance`, per the data model). -/
theorem C3_keyword_monotone (e : AutoResponseEngine) (now : ℚ) (msg : String)
    (ctx : List ContextEntry) (T : List (String × ℚ)) (k : String) (m : ℚ)
    (hbase : 0 ≤ e.settings.base_chance)
    (hT : ∀ p ∈ T, 0 ≤ p.2)
    (hnotin : ∀ p ∈ T, p.1 ≠ k)
    (hmatch : strIn (pyLower k) (pyLower msg) = true)
    (hm : 1 < m) :
    calculate_chance e now msg T ctx
      ≤ calculate_chance e now msg (T ++ [(k, m)]) ctx := by
  rw [calculate_chance_eq_raw, calculate_chance_eq_raw]
  have hsingle : keyword_factor msg [(k, m)] = m := by
    simp [keyword_factor, hmatch]
  have heq : raw_chance e now msg (T ++ [(k, m)]) ctx
      = raw_chance e now msg T ctx * m := by
    unfold raw_chance
    rw [keyword_factor_append, hsingle]
    ring
  rw [heq]
  exact pymin_le_pymin_left _
    (le_mul_of_one_le_right (raw_chance_nonneg e now msg T ctx hbase hT) hm.le)

/-- Witness for C3 at a concrete input. -/
theorem C3_keyword_monotone_witness :
    0 ≤ scenarioEngine.settings.base_chance
      ∧ (∀ p ∈ [("help", (2:ℚ))], 0 ≤ p.2)
      ∧ (∀ p ∈ [("help", (2:ℚ))], p.1 ≠ "bug")
      ∧ strIn (pyLower "bug") (pyLower "is this a bug??") = true
      ∧ (1:ℚ) < 5
      ∧ calculate_chance scenarioEngine 0 "is this a bug??" [("help", 2)] []
          ≤ calculate_chance scenarioEngine 0 "is this a bug??"
              ([("help", 2)] ++ [("bug", 5)]) [] := by
  have h1 : 0 ≤ scenarioEngine.settings.base_chance := by norm_num [scenarioEngine]
  have h2 : ∀ p ∈ [("help", (2:ℚ))], 0 ≤ p.2 := by
    intro p hp
    simp only [List.mem_singleton] at hp
    subst hp
    norm_num
  have h3 : ∀ p ∈ [("help", (2:ℚ))], p.1 ≠ "bug" := by
    intro p hp
    simp only [List.mem_singleton] at hp
    subst hp
    decide
  have h4 : strIn (pyLower "bug") (pyLower "is this a bug??") = true := by decide
  have h5 : (1:ℚ) < 5 := by norm_num
  exact ⟨h1, h2, h3, h4, h5,
    C3_keyword_monotone scenarioEngine 0 "is this a bug??" [] [("help", 2)]
      "bug" 5 h1 h2 h3 h4 h5⟩

end AutoResp

namespace AutoResp

/-- C4: `check_cooldowns` is true exactly when no recorded last response
is within the `min_seconds_between` floor and the count of
`response_times` entries newer than `now - window_seconds` is below
`max_per_window`; concretely (settings `minSecondsBetween: 30`,
`maxPerWindow: 3`, `windowSeconds: 300`), after records at 0, 40 and 80 a
check at 120 (inside the window) is false and a check at 381 (after the
window elapsed) is true. -/
theorem C4_check_cooldowns_characterization :
    (∀ (e : AutoResponseEngine) (now : ℚ),
      check_cooldowns e now = true ↔
        (¬ ∃ t, e.last_response_time = some t
            ∧ now - t < e.settings.min_seconds_between)
          ∧ ¬ (e.settings.max_per_window
              ≤ (e.response_times.filter
                  (fun t => now - e.settings.window_seconds < t)).length))
    ∧ check_cooldowns
        (record_response (record_response (record_response scenarioEngine 0) 40) 80) 120
        = false
    ∧ check_cooldowns
        (record_response (record_response (record_response scenarioEngine 0) 40) 80) 381
        = true := by
  refine ⟨?_, ?_, ?_⟩
  · intro e now
    unfold check_cooldowns
    cases h : e.last_response_time with
    | none => simp [h, not_le]
    | some t => simp [h, not_le, Bool.and_eq_true, Bool.not_eq_true',
        decide_eq_false_iff_not]
  · have hrec : (record_response (record_response (record_response scenarioEngine 0) 40) 80)
        = { settings := scenarioEngine.settings
            last_response_time := some 80
            response_times := [0, 40, 80] } := by
      norm_num [record_response, scenarioEngine, List.filter]
    rw [hrec]
    norm_num [check_cooldowns, scenarioEngine, List.filter]
  · have hrec : (record_response (record_response (record_response scenarioEngine 0) 40) 80)
        = { settings := scenarioEngine.settings
            last_response_time := some 80
            response_times := [0, 40, 80] } := by
      norm_num [record_response, scenarioEngine, List.filter]
    rw [hrec]
    norm_num [check_cooldowns, scenarioEngine, List.filter]

end AutoResp

namespace AutoResp

/-- C8: `should_respond` never mutates engine state — whatever it returns,
the engine component of the result is the engine it was given (hence
`settings`, `last_response_time` and `response_times` are unchanged) —
while `record_response` is the operation that does change the cooldown
state. -/
theorem C8_should_respond_no_mutation :
    (∀ (e : AutoResponseEngine) (ch msg : String) (kws : List (String × ℚ))
        (ctx : List ContextEntry) (now roll : ℚ),
      (should_respond e ch msg kws ctx now roll).2 = e)
    ∧ (∀ (e : AutoResponseEngine) (now : ℚ),
        (record_response e now).last_response_time = some now) := by
  constructor
  · intro e ch msg kws ctx now roll
    unfold should_respond
    split_ifs <;> rfl
  · intro e now
    rfl

/-- C9: loading settings is total — a missing or malformed document yields
the dataclass defaults, and a parsed document yields `from_dict`, where
every absent key takes the same default the data model declares and every
present key takes the document's value. -/
theorem C9_load_settings_total :
    load_settings .missing = defaultSettings
      ∧ load_settings .malformed = defaultSettings
      ∧ ∀ d : SettingsDoc,
          load_settings (.valid d) = from_dict d
            ∧ (from_dict d).enabled = d.enabled.getD defaultSettings.enabled
            ∧ (from_dict d).designated_channel_id = d.designated_channel_id
            ∧ (from_dict d).base_chance
                = d.base_chance.getD defaultSettings.base_chance
            ∧ (from_dict d).max_chance
                = d.max_chance.getD defaultSettings.max_chance
            ∧ (from_dict d).min_seconds_between
                = d.min_seconds_between.getD defaultSettings.min_seconds_between
            ∧ (from_dict d).max_per_window
                = d.max_per_window.getD defaultSettings.max_per_window
            ∧ (from_dict d).window_seconds
                = d.window_seconds.getD defaultSettings.window_seconds := by
  exact ⟨rfl, rfl, fun d => ⟨rfl, rfl, rfl, rfl, rfl, rfl, rfl, rfl⟩⟩

/-- C10: on the empty message the chance calculation is total (the
caps-ratio division is guarded by a positive-length test), no keyword,
punctuation or caps factor applies (given no keyword phrase is the empty
string), and what remains is `base_chance × 0.3` before the context and
cooldown factors and the final cap. -/
theorem C10_empty_message (e : AutoResponseEngine) (now : ℚ)
    (kws : List (String × ℚ)) (ctx : List ContextEntry)
    (hkw : ∀ p ∈ kws, p.1 ≠ "") :
    calculate_chance e now "" kws ctx
      = pymin (e.settings.base_chance * (3/10) * context_factor ctx
          * cooldown_factor e now) e.settings.max_chance := by
  rw [calculate_chance_eq_raw]
  have hkf : keyword_factor "" kws = 1 := by
    unfold keyword_factor
    have hfil : kws.filter (fun p => strIn (pyLower p.1) (pyLower "")) = [] := by
      rw [List.filter_eq_nil_iff]
      intro p hp hc
      apply hkw p hp
      have hdata : p.1.data.map Char.toLower = [] := by
        have : (p.1.data.map Char.toLower).isEmpty = true := hc
        simpa [List.isEmpty_iff] using this
      have : p.1.data = [] := List.map_eq_nil_iff.mp hdata
      exact String.ext this
    rw [hfil]
    rfl
  have hq : question_factor "" = 1 := by
    have h : strIn "?" "" = false := by decide
    simp [question_factor, h]
  have hex : exclamation_factor "" = 1 := by
    have h : strIn "!" "" = false := by decide
    simp [exclamation_factor, h]
  have hcap : caps_factor "" = 1 := by
    have h : "".length = 0 := rfl
    simp [caps_factor, h]
  have hlen : length_factor "" = 3/10 := by
    have h : "".length = 0 := rfl
    unfold length_factor
    rw [h]
    norm_num
  unfold raw_chance
  rw [hkf, hq, hex, hcap, hlen]
  congr 1
  ring

/-- Witness for C10 at a concrete input. -/
theorem C10_empty_message_witness :
    (∀ p ∈ [("bug", (5:ℚ))], p.1 ≠ "")
      ∧ calculate_chance defaultEngine 0 "" [("bug", 5)] []
          = pymin (defaultEngine.settings.base_chance * (3/10)
              * context_factor [] * cooldown_factor defaultEngine 0)
              defaultEngine.settings.max_chance := by
  have h : ∀ p ∈ [("bug", (5:ℚ))], p.1 ≠ "" := by
    intro p hp
    simp only [List.mem_singleton] at hp
    subst hp
    decide
  exact ⟨h, C10_empty_message defaultEngine 0 [("bug", 5)] [] h⟩

end AutoResp

namespace AutoResp

/-- Concrete evaluation of the chance for message `"hi?"` on a fresh
default engine, leaving the context factor symbolic. -/
theorem calc_hi_eval (ctx : List ContextEntry) :
    calculate_chance defaultEngine 0 "hi?" [] ctx
      = pymin ((1/50) * 2 * (3/10) * context_factor ctx) (4/5) := by
  rw [calculate_chance_eq_raw]
  have hkf : keyword_factor "hi?" [] = 1 := by
    simp [keyword_factor]
  have hq : question_factor "hi?" = 2 := by
    have h : strIn "?" "hi?" = true := by decide
    simp [question_factor, h]
  have hex : exclamation_factor "hi?" = 1 := by
    have h : strIn "!" "hi?" = false := by decide
    simp [exclamation_factor, h]
  have hcap : caps_factor "hi?" = 1 := by
    have h1 : ("hi?".data.filter Char.isUpper).length = 0 := by decide
    have h2 : "hi?".length = 3 := by decide
    unfold caps_factor
    rw [h1, h2]
    norm_num
  have hlen : length_factor "hi?" = 3/10 := by
    have h2 : "hi?".length = 3 := by decide
    unfold length_factor
    rw [h2]
    norm_num
  have hcool : cooldown_factor defaultEngine 0 = 1 := by
    simp [cooldown_factor, check_cooldowns_soft, defaultEngine, defaultSettings]
  have hbase : defaultEngine.settings.base_chance = 1/50 := rfl
  have hmax : defaultEngine.settings.max_chance = 4/5 := rfl
  unfold raw_chance
  rw [hkf, hq, hex, hcap, hlen, hcool, hbase, hmax]
  congr 1
  ring

/-- C7 counterexample: the context entry `"bug bug"` contains two
occurrences of the lexicon term `"bug"`, yet the calculator does not
multiply the chance by 2.0 — `tech_mentions` counts the (entry, term)
pair once, the chance equals the no-context chance, and is not twice
it. -/
theorem C7_counterexample :
    2 ≤ occurrencesOf "bug" (pyLower "bug bug")
      ∧ tech_mentions
          [{ timestamp := 0, user := "u", message := "bug bug", is_bot := false }] = 1
      ∧ calculate_chance defaultEngine 0 "hi?" []
            [{ timestamp := 0, user := "u", message := "bug bug", is_bot := false }]
          = calculate_chance defaultEngine 0 "hi?" [] []
      ∧ ¬ calculate_chance defaultEngine 0 "hi?" []
            [{ timestamp := 0, user := "u", message := "bug bug", is_bot := false }]
          = 2 * calculate_chance defaultEngine 0 "hi?" [] [] := by
  have hocc : 2 ≤ occurrencesOf "bug" (pyLower "bug bug") := by decide
  have hm : tech_mentions
      [{ timestamp := 0, user := "u", message := "bug bug", is_bot := false }] = 1 := by
    decide
  have hctx1 : context_factor
      [{ timestamp := 0, user := "u", message := "bug bug", is_bot := false }] = 1 := by
    simp [context_factor, hm]
  have hctx0 : context_factor ([] : List ContextEntry) = 1 := by
    simp [context_factor]
  have e1 := calc_hi_eval
    [{ timestamp := 0, user := "u", message := "bug bug", is_bot := false }]
  have e0 := calc_hi_eval []
  rw [hctx1] at e1
  rw [hctx0] at e0
  refine ⟨hocc, hm, ?_, ?_⟩
  · rw [e1, e0]
  · rw [e1, e0]
    unfold pymin
    norm_num

/-- C7 (amended): the calculator multiplies the chance by 2.0 exactly when
`tech_mentions` — the number of (entry, lexicon term) pairs over the last
5 context entries in which the term occurs as a substring of the entry's
lowercased message — is at least 2. A term occurring twice inside one
entry counts once (so `"bug bug"` contributes 1), while one entry
containing two distinct terms suffices (`"bug error"` contributes 2). -/
theorem C7_context_doubling_amended :
    (∀ (e : AutoResponseEngine) (now : ℚ) (msg : String)
        (kws : List (String × ℚ)) (ctx : List ContextEntry),
      (2 ≤ tech_mentions ctx →
        calculate_chance e now msg kws ctx
          = pymin (raw_chance e now msg kws [] * 2) e.settings.max_chance)
      ∧ (tech_mentions ctx < 2 →
        calculate_chance e now msg kws ctx = calculate_chance e now msg kws []))
    ∧ tech_mentions
        [{ timestamp := 0, user := "u", message := "bug error", is_bot := false }] = 2
    ∧ tech_mentions
        [{ timestamp := 0, user := "u", message := "bug bug", is_bot := false }] = 1 := by
  refine ⟨?_, by decide, by decide⟩
  intro e now msg kws ctx
  have hctx0 : context_factor ([] : List ContextEntry) = 1 := by
    simp [context_factor]
  constructor
  · intro h2
    have hne : ctx ≠ [] := by
      intro hnil
      rw [hnil] at h2
      have : tech_mentions ([] : List ContextEntry) = 0 := rfl
      omega
    have hcf : context_factor ctx = 2 := by
      simp [context_factor, hne, h2]
    rw [calculate_chance_eq_raw]
    congr 1
    unfold raw_chance
    rw [hcf, hctx0]
    ring
  · intro hlt
    rw [calculate_chance_eq_raw, calculate_chance_eq_raw]
    congr 1
    have h1 : context_factor ctx = 1 := by
      unfold context_factor
      split_ifs with ha hb
      · omega
      · rfl
      · rfl
    unfold raw_chance
    rw [h1, hctx0]

/-- Witness for the amended C7 at a concrete input. -/
theorem C7_context_doubling_amended_witness :
    2 ≤ tech_mentions
        [{ timestamp := 0, user := "u", message := "bug error", is_bot := false }]
      ∧ calculate_chance defaultEngine 0 "hi?" []
            [{ timestamp := 0, user := "u", message := "bug error", is_bot := false }]
          = pymin (raw_chance defaultEngine 0 "hi?" [] [] * 2)
              defaultEngine.settings.max_chance := by
  have h : 2 ≤ tech_mentions
      [{ timestamp := 0, user := "u", message := "bug error", is_bot := false }] := by
    decide
  exact ⟨h,
    (C7_context_doubling_amended.1 defaultEngine 0 "hi?" []
      [{ timestamp := 0, user := "u", message := "bug error", is_bot := false }]).1 h⟩

end AutoResp

namespace Ctx

open AutoResp (ContextEntry)

/-- A list with no matching entry is left alone: the newest-to-oldest scan
of `remove_last_bot_message` finds nothing. -/
theorem removeLastMatching_of_no_match (content : String) :
    ∀ (l : List ContextEntry),
      (∀ x ∈ l, ¬(x.is_bot = true ∧ x.message = content)) →
      removeLastMatching content l = none := by
  intro l
  induction l with
  | nil => intro _; rfl
  | cons e t ih =>
    intro h
    have ht := ih (fun x hx => h x (List.mem_cons_of_mem e hx))
    have he := h e (List.mem_cons_self e t)
    simp only [removeLastMatching]
    rw [ht]
    have hcond : (e.is_bot && e.message == content) = false := by
      by_cases hb : e.is_bot = true
      · have hm : e.message ≠ content := fun hm => he ⟨hb, hm⟩
        simp [hb, hm]
      · rw [Bool.not_eq_true] at hb
        simp [hb]
    rw [hcond]
    simp

/-- When the list splits as `pre ++ en :: post` with `en` the newest
matching entry (nothing in `post` matches), the scan removes exactly
`en`. -/
theorem removeLastMatching_split (content : String)
    (pre post : List ContextEntry) (en : ContextEntry)
    (hb : en.is_bot = true) (hm : en.message = content)
    (hpost : ∀ x ∈ post, ¬(x.is_bot = true ∧ x.message = content)) :
    removeLastMatching content (pre ++ en :: post) = some (pre ++ post) := by
  induction pre with
  | nil =>
    simp only [List.nil_append]
    have hnone := removeLastMatching_of_no_match content post hpost
    simp only [removeLastMatching]
    rw [hnone]
    have hcond : (en.is_bot && en.message == content) = true := by
      simp [hb, hm]
    rw [hcond]
    simp
  | cons p t ih =>
    simp only [List.cons_append, removeLastMatching, List.append_eq]
    rw [ih]

/-- C5: `remove_last_bot_message` removes exactly the newest entry whose
`is_bot` flag is set and whose text equals `content`, returning `true`
(all other entries and channels unchanged); with no such entry it returns
`false` and changes nothing. On the scenario history
`[A(bot,"x"), B(user,"y"), C(bot,"x")]` the first call removes `C`, the
second removes `A`, and the third returns `false`. -/
theorem C5_remove_last_bot_message :
    (∀ (cm : ContextManager) (ch content : String)
        (pre post : List ContextEntry) (en : ContextEntry),
      cm.context_data ch = pre ++ en :: post →
      en.is_bot = true → en.message = content →
      (∀ x ∈ post, ¬(x.is_bot = true ∧ x.message = content)) →
      remove_last_bot_message cm ch content
        = (true, { cm with context_data :=
            fun c => if c = ch then pre ++ post else cm.context_data c }))
    ∧ (∀ (cm : ContextManager) (ch content : String),
        (∀ x ∈ cm.context_data ch, ¬(x.is_bot = true ∧ x.message = content)) →
        remove_last_bot_message cm ch content = (false, cm))
    ∧ (remove_last_bot_message scenarioStore "chan" "x").1 = true
    ∧ (remove_last_bot_message scenarioStore "chan" "x").2.context_data "chan"
        = [entryA, entryB]
    ∧ (remove_last_bot_message
        (remove_last_bot_message scenarioStore "chan" "x").2 "chan" "x").1 = true
    ∧ (remove_last_bot_message
        (remove_last_bot_message scenarioStore "chan" "x").2 "chan" "x").2.context_data "chan"
        = [entryB]
    ∧ (remove_last_bot_message
        (remove_last_bot_message
          (remove_last_bot_message scenarioStore "chan" "x").2 "chan" "x").2 "chan" "x").1
        = false := by
  refine ⟨?_, ?_, ?_, ?_, ?_, ?_, ?_⟩
  · intro cm ch content pre post en hdata hb hm hpost
    unfold remove_last_bot_message
    rw [hdata, removeLastMatching_split content pre post en hb hm hpost]
  · intro cm ch content h
    unfold remove_last_bot_message
    rw [removeLastMatching_of_no_match content (cm.context_data ch) h]
  · rfl
  · rfl
  · rfl
  · rfl
  · rfl

/-- Witness for the universally quantified parts of C5 at a concrete
input. -/
theorem C5_remove_last_bot_message_witness :
    scenarioStore.context_data "chan" = [entryA, entryB] ++ entryC :: []
      ∧ entryC.is_bot = true
      ∧ entryC.message = "x"
      ∧ (∀ x ∈ ([] : List ContextEntry), ¬(x.is_bot = true ∧ x.message = "x"))
      ∧ remove_last_bot_message scenarioStore "chan" "x"
          = (true, { scenarioStore with context_data :=
              fun c => if c = "chan" then [entryA, entryB] ++ [] else
                scenarioStore.context_data c }) := by
  have h1 : scenarioStore.context_data "chan" = [entryA, entryB] ++ entryC :: [] := rfl
  have h4 : ∀ x ∈ ([] : List ContextEntry), ¬(x.is_bot = true ∧ x.message = "x") := by
    intro x hx
    cases hx
  exact ⟨h1, rfl, rfl, h4,
    C5_remove_last_bot_message.1 scenarioStore "chan" "x" [entryA, entryB] []
      entryC h1 rfl rfl h4⟩

end Ctx

namespace Ctx

open AutoResp (ContextEntry)

theorem emptyStore_max_history (mh : ℕ) : (emptyStore mh).max_history = mh := rfl

theorem add_message_max_history (cm : ContextManager) (ch u m : String)
    (b : Bool) (now : ℚ) :
    (add_message cm ch u m b now).max_history = cm.max_history := rfl

theorem sliceLast_of_pos (n : ℕ) (hn : 1 ≤ n) (l : List ContextEntry) :
    sliceLast n l = l.drop (l.length - n) := by
  unfold sliceLast
  rw [if_neg (by omega)]

/-- One `add_message` step: if the channel currently holds the last
`max_history` elements of `acc`, afterwards it holds the last
`max_history` elements of `acc` with the new entry appended
(for `max_history ≥ 1`). -/
theorem add_message_drop (cm : ContextManager) (ch u m : String) (b : Bool)
    (now : ℚ) (hmh : 1 ≤ cm.max_history) (acc : List ContextEntry)
    (hacc : cm.context_data ch = acc.drop (acc.length - cm.max_history)) :
    (add_message cm ch u m b now).context_data ch
      = (acc ++ [({ timestamp := now, user := u, message := m, is_bot := b }
            : ContextEntry)]).drop
          ((acc ++ [({ timestamp := now, user := u, message := m, is_bot := b }
            : ContextEntry)]).length - cm.max_history) := by
  simp only [add_message, eq_self_iff_true, if_true]
  rw [hacc]
  by_cases hcase : acc.length < cm.max_history
  · have h0 : acc.length - cm.max_history = 0 := by omega
    rw [h0, List.drop_zero]
    rw [if_neg (by simp; omega)]
    have h1 : (acc ++ [({ timestamp := now, user := u, message := m, is_bot := b }
        : ContextEntry)]).length - cm.max_history = 0 := by
      simp
      omega
    rw [h1, List.drop_zero]
  · push_neg at hcase
    have hclen : (acc.drop (acc.length - cm.max_history)).length = cm.max_history := by
      rw [List.length_drop]
      omega
    rw [if_pos (by simp [hclen])]
    rw [sliceLast_of_pos _ hmh]
    have hlen2 : (acc.drop (acc.length - cm.max_history)
        ++ [({ timestamp := now, user := u, message := m, is_bot := b }
          : ContextEntry)]).length - cm.max_history = 1 := by
      simp [hclen]
    rw [hlen2]
    rw [List.drop_append_of_le_length (by omega : 1 ≤ (acc.drop (acc.length - cm.max_history)).length)]
    rw [List.drop_drop]
    have hr : (acc ++ [(⟨now, u, m, b⟩ : ContextEntry)]).length - cm.max_history
        = acc.length + 1 - cm.max_history := by
      simp
    rw [hr]
    rw [List.drop_append_of_le_length (by omega : acc.length + 1 - cm.max_history ≤ acc.length)]
    congr 2
    omega

theorem add_all_cons (cm : ContextManager) (ch : String) (en : ContextEntry)
    (t : List ContextEntry) :
    add_all cm ch (en :: t)
      = add_all (add_message cm ch en.user en.message en.is_bot en.timestamp) ch t := by
  simp [add_all]

/-- Folding a list of appends over a channel that holds the last
`max_history` elements of `acc` leaves it holding the last `max_history`
elements of `acc ++ es`, and does not change the capacity. -/
theorem add_all_drop (ch : String) (es : List ContextEntry) :
    ∀ (cm : ContextManager) (acc : List ContextEntry),
      1 ≤ cm.max_history →
      cm.context_data ch = acc.drop (acc.length - cm.max_history) →
      (add_all cm ch es).context_data ch
          = (acc ++ es).drop ((acc ++ es).length - cm.max_history)
        ∧ (add_all cm ch es).max_history = cm.max_history := by
  induction es with
  | nil =>
    intro cm acc hmh hacc
    refine ⟨?_, rfl⟩
    simpa [add_all] using hacc
  | cons en t ih =>
    intro cm acc hmh hacc
    have hstep := add_message_drop cm ch en.user en.message en.is_bot en.timestamp hmh acc hacc
    have heta : (⟨en.timestamp, en.user, en.message, en.is_bot⟩ : ContextEntry) = en := rfl
    rw [heta] at hstep
    have h := ih (add_message cm ch en.user en.message en.is_bot en.timestamp)
      (acc ++ [en]) hmh hstep
    rw [add_message_max_history] at h
    constructor
    · rw [add_all_cons, h.1]
      simp [List.append_assoc]
    · rw [add_all_cons, h.2]

/-- A successful removal shortens the list by exactly one. -/
theorem removeLastMatching_length (content : String) :
    ∀ (l l' : List ContextEntry),
      removeLastMatching content l = some l' → l'.length + 1 = l.length := by
  intro l
  induction l with
  | nil =>
    intro l' h
    exact absurd h (by simp [removeLastMatching])
  | cons e t ih =>
    intro l' h
    simp only [removeLastMatching] at h
    cases hrec : removeLastMatching content t with
    | some r =>
      rw [hrec] at h
      simp only [Option.some.injEq] at h
      have := ih r hrec
      rw [← h]
      simp only [List.length_cons]
      omega
    | none =>
      rw [hrec] at h
      split_ifs at h with hcond
      simp only [Option.some.injEq] at h
      rw [← h]
      simp

end Ctx

namespace Ctx

open AutoResp (ContextEntry)

/-- C6 counterexample: with `maxHistory = 0`, one append to an empty store
leaves a list of length 1, not `maxHistory = 0` — Python's trim slice
`l[-0:]` is the whole list, so no trimming ever happens and the
`length ≤ maxHistory` invariant fails. -/
theorem C6_counterexample :
    ((add_message (emptyStore 0) "chan" "u" "m" false 0).context_data "chan").length = 1
      ∧ ¬ ((add_message (emptyStore 0) "chan" "u" "m" false 0).context_data "chan").length
          ≤ (emptyStore 0).max_history := by
  constructor
  · rfl
  · decide

/-- C6 (amended, requiring `maxHistory ≥ 1`): starting from an empty
store, after `maxHistory + k` appends (`k ≥ 1`) to one channel the stored
list is exactly the most recent `maxHistory` appended entries in original
order, so its length is `maxHistory`; and the `length ≤ maxHistory`
invariant is preserved by `add_message`, `remove_last_bot_message` and
`clear_channel` on every channel. -/
theorem C6_context_bound_amended :
    (∀ (mh kk : ℕ) (ch : String) (es : List ContextEntry),
      1 ≤ mh → es.length = mh + kk → 1 ≤ kk →
      (add_all (emptyStore mh) ch es).context_data ch = es.drop kk
        ∧ ((add_all (emptyStore mh) ch es).context_data ch).length = mh)
    ∧ (∀ (cm : ContextManager) (ch u m : String) (b : Bool) (now : ℚ),
        1 ≤ cm.max_history →
        (∀ c, (cm.context_data c).length ≤ cm.max_history) →
        ∀ c, ((add_message cm ch u m b now).context_data c).length ≤ cm.max_history)
    ∧ (∀ (cm : ContextManager) (ch content : String),
        (∀ c, (cm.context_data c).length ≤ cm.max_history) →
        ∀ c, ((remove_last_bot_message cm ch content).2.context_data c).length
            ≤ cm.max_history)
    ∧ (∀ (cm : ContextManager) (ch : String),
        (∀ c, (cm.context_data c).length ≤ cm.max_history) →
        ∀ c, ((clear_channel cm ch).context_data c).length ≤ cm.max_history) := by
  refine ⟨?_, ?_, ?_, ?_⟩
  · intro mh kk ch es hmh hlen hkk
    have hinit : (emptyStore mh).context_data ch
        = ([] : List ContextEntry).drop (([] : List ContextEntry).length
            - (emptyStore mh).max_history) := by
      simp [emptyStore]
    have h := (add_all_drop ch es (emptyStore mh) [] hmh hinit).1
    simp only [List.nil_append, emptyStore_max_history] at h
    rw [hlen] at h
    have hsub : mh + kk - mh = kk := by omega
    rw [hsub] at h
    refine ⟨h, ?_⟩
    rw [h, List.length_drop]
    omega
  · intro cm ch u m b now hmh hinv c
    by_cases hc : c = ch
    · subst hc
      simp only [add_message, eq_self_iff_true, if_true]
      by_cases htrim : cm.max_history
          < (cm.context_data c
              ++ [({ timestamp := now, user := u, message := m, is_bot := b }
                : ContextEntry)]).length
      · rw [if_pos htrim, sliceLast_of_pos _ hmh, List.length_drop]
        omega
      · rw [if_neg htrim]
        omega
    · simp only [add_message]
      rw [if_neg hc]
      exact hinv c
  · intro cm ch content hinv c
    unfold remove_last_bot_message
    cases hr : removeLastMatching content (cm.context_data ch) with
    | none => exact hinv c
    | some l' =>
      by_cases hc : c = ch
      · subst hc
        have h1 := hinv c
        have h2 := removeLastMatching_length content (cm.context_data c) l' hr
        show (if c = c then l' else cm.context_data c).length ≤ cm.max_history
        rw [if_pos rfl]
        omega
      · show (if c = ch then l' else cm.context_data c).length ≤ cm.max_history
        rw [if_neg hc]
        exact hinv c
  · intro cm ch hinv c
    unfold clear_channel
    by_cases hc : c = ch
    · subst hc
      show (if c = c then ([] : List ContextEntry) else cm.context_data c).length
          ≤ cm.max_history
      rw [if_pos rfl]
      simp
    · show (if c = ch then ([] : List ContextEntry) else cm.context_data c).length
          ≤ cm.max_history
      rw [if_neg hc]
      exact hinv c

/-- Witness for the amended C6 at a concrete input: capacity 2, three
appends, the channel retains the last two entries. -/
theorem C6_context_bound_amended_witness :
    1 ≤ 2 ∧ ([entryA, entryB, entryC] : List ContextEntry).length = 2 + 1 ∧ 1 ≤ 1
      ∧ (add_all (emptyStore 2) "chan" [entryA, entryB, entryC]).context_data "chan"
          = [entryB, entryC]
      ∧ ((add_all (emptyStore 2) "chan"
          [entryA, entryB, entryC]).context_data "chan").length = 2 := by
  have h := C6_context_bound_amended.1 2 1 "chan" [entryA, entryB, entryC]
    (by decide) rfl (le_refl 1)
  exact ⟨by decide, rfl, le_refl 1, h.1.trans rfl, h.2⟩

end Ctx
